import Mathlib

/-!
Shallow embedding of the Google Calendar AI agent (`src/config.py`, `src/main.py`).

Modelling conventions:

* Python values flowing through the program (JSON data, intents, event dicts)
  are modelled by the inductive type `PyVal`.  A Python `dict` is an
  association list looked up on its first matching key (all dicts built by the
  program have distinct keys).
* `datetime` values are carried as `Int` timestamps in microseconds.  The
  constructor `PyVal.pydt t` stands for the string `datetime.isoformat()` of
  the datetime with timestamp `t`; `isoformat` is injective and
  order-preserving, so claims about "before / after" are stated on the
  timestamps.  The two successive `datetime.now()` calls made by the mock
  interpreter are modelled by two explicit clock readings `now1`, `now2`
  (monotonicity `now1 ≤ now2` is a hypothesis where a claim needs it).
* External effects are oracles: the OpenAI chat completion is a `String`
  parameter (`modelText`, the model's reply text), the Python standard
  library `json.loads` is a parameter `jsonLoads : String → Option PyVal`
  (`none` = decode failure), and the calendar HTTP endpoint is a `CalOracle`
  giving the `HttpResponse` for each request.  Network calls made by a run
  are recorded in a `List NetCall` trace, so "no network call is made" is
  `trace = []`.
* A Python exception that propagates is an `Except.error`; `raise
  Exception(msg)` is `PyErr.exception msg`, calling `.get` on a value that
  is not a dict is `PyErr.attributeError "get"`, iterating a non-iterable is
  `PyErr.typeError`.
* `logging` output and HTTP auth headers are not modelled: they carry no
  data any claim mentions (headers hold only the constant bearer token).
-/

namespace CalendarAgent

/-- Values of the dynamically typed Python fragment the program manipulates. -/
inductive PyVal where
  | none
  | bool (b : Bool)
  | int (n : Int)
  | str (s : String)
  | pydt (t : Int)
  | dict (entries : List (String × PyVal))
  | list (elems : List PyVal)

/-- Python exceptions that the program can raise. -/
inductive PyErr where
  | exception (msg : String)
  | attributeError (attr : String)
  | typeError (msg : String)
  | jsonDecodeError
deriving DecidableEq

/-- Network calls the program can make; a run's trace lists them in order. -/
inductive NetCall where
  | openaiChat (message : String)
  | postEvents (url : String) (payload : PyVal)
  | getEvents (url : String) (params : List (String × PyVal))

/-- An HTTP response: `ok` status flag, body text, and decoded JSON body. -/
structure HttpResponse where
  ok : Bool
  text : String
  json : PyVal

/-- Oracle giving the calendar endpoint's response to each request. -/
structure CalOracle where
  post : String → PyVal → HttpResponse
  get : String → List (String × PyVal) → HttpResponse

/-- Microseconds in one hour (timedelta unit). -/
def usPerHour : Int := 3600000000

/-- Microseconds in one day (timedelta unit). -/
def usPerDay : Int := 24 * usPerHour

/-- Python dict `.get(k, d)` on an association list (total form). -/
def dictGetD (entries : List (String × PyVal)) (k : String) (d : PyVal) : PyVal :=
  match entries.lookup k with
  | some v => v
  | Option.none => d

/-- Python `.get(k, d)` on an arbitrary value: values that are not dicts
have no `get` attribute, so the call raises `AttributeError`. -/
def pyGet (v : PyVal) (k : String) (d : PyVal) : Except PyErr PyVal :=
  match v with
  | PyVal.dict entries => Except.ok (dictGetD entries k d)
  | _ => Except.error (PyErr.attributeError "get")

/-- Python truthiness of a `PyVal` (`pydt` stands for a non-empty string). -/
def pyTruthy : PyVal → Bool
  | PyVal.none => false
  | PyVal.bool b => b
  | PyVal.int n => decide (n ≠ 0)
  | PyVal.str s => decide (s ≠ "")
  | PyVal.pydt _ => true
  | PyVal.dict entries => !entries.isEmpty
  | PyVal.list elems => !elems.isEmpty

/-- Rendering of the (abstract) isoformat string carried by `PyVal.pydt`.
The exact text is irrelevant to every claim (claims compare timestamps);
only injectivity matters, so we render the timestamp in decimal. -/
def isoRender (t : Int) : String := toString t

/-- Python `str()` as used by the reply f-strings.  Dicts and lists are
never rendered on any path a claim touches, so their text is a placeholder. -/
def pyStr : PyVal → String
  | PyVal.none => "None"
  | PyVal.bool b => if b then "True" else "False"
  | PyVal.int n => toString n
  | PyVal.str s => s
  | PyVal.pydt t => isoRender t
  | PyVal.dict _ => "<dict>"
  | PyVal.list _ => "<list>"

/-- Does the text (second argument) start with the pattern (first)? -/
def charsStartWith : List Char → List Char → Bool
  | [], _ => true
  | _ :: _, [] => false
  | p :: ps, c :: cs => p == c && charsStartWith ps cs

/-- Does the text contain the pattern as a contiguous substring? -/
def charsContain (pat : List Char) : List Char → Bool
  | [] => pat.isEmpty
  | c :: cs => charsStartWith pat (c :: cs) || charsContain pat cs

/-- Python substring test `pat in s` (used only with non-empty patterns). -/
def strContains (s pat : String) : Bool :=
  charsContain pat.toList s.toList

/-- Python `str.lower()`: lowercase each character. -/
def pyLower (s : String) : String :=
  String.mk (s.toList.map Char.toLower)

/-- The character `{` (written by code point to keep strings plain). -/
def braceOpen : Char := Char.ofNat 123

/-- The character `}` (written by code point to keep strings plain). -/
def braceClose : Char := Char.ofNat 125

/-- Index of the first occurrence of `c` in a character list. -/
def firstIdxOf (c : Char) : List Char → Option Nat
  | [] => Option.none
  | x :: xs => if x = c then some 0 else (firstIdxOf c xs).map (fun i => i + 1)

/-- Index of the last occurrence of `c` in a character list. -/
def lastIdxOf (c : Char) : List Char → Option Nat
  | [] => Option.none
  | x :: xs =>
    match lastIdxOf c xs with
    | some j => some (j + 1)
    | Option.none => if x = c then some 0 else Option.none

/-- Semantics of `re.search(r"(\x7b.*\x7d)", text, re.S)` followed by
`m.group(1)`: the leftmost match starts at the first `{` that is followed by
some `}`, and the greedy `.*` extends the match to the last `}` of the whole
text.  Returns `none` when the pattern has no match. -/
def extractBraces (text : String) : Option String :=
  let l := text.toList
  match lastIdxOf braceClose l with
  | Option.none => Option.none
  | some j =>
    match firstIdxOf braceOpen (l.take j) with
    | Option.none => Option.none
    | some i => some (String.mk ((l.drop i).take (j + 1 - i)))

/-- Embedding of `Config` (src/config.py). -/
structure Config where
  OPENAI_API_KEY : String
  GOOGLE_API_TOKEN : String
  CALENDAR_ID : String
  TIMEZONE : String
  mock : Bool

/-- Embedding of `Config.load_from_env` (src/config.py, lines 15-22).  The
process environment is a map from variable name to its value (`none` when
the variable is absent); `os.getenv(k, d)` is `(env k).getD d`.  Python's
`mock = not (oa and g and c)` is true exactly when some credential string is
empty. -/
def Config.load_from_env (env : String → Option String) : Config :=
  let oa := (env "OPENAI_API_KEY").getD ""
  let g := (env "GOOGLE_API_TOKEN").getD ""
  let c := (env "CALENDAR_ID").getD ""
  let tz := (env "TIMEZONE").getD "Europe/Paris"
  Config.mk oa g c tz (!(decide (oa ≠ "") && decide (g ≠ "") && decide (c ≠ "")))

/-- Embedding of `mock_create_event` (src/main.py, lines 30-32); the
`log.info` call is not modelled. -/
def mock_create_event (_title _desc _start _end : PyVal) : PyVal :=
  PyVal.dict [("status", PyVal.str "mocked"),
              ("htmlLink", PyVal.str "https://calendar.google.com/mock/event")]

/-- Embedding of `mock_get_events` (src/main.py, lines 34-39). -/
def mock_get_events (start _end : PyVal) : PyVal :=
  PyVal.list
    [PyVal.dict [("summary", PyVal.str "Mock Meeting with Team"),
                 ("start", start), ("end", _end)],
     PyVal.dict [("summary", PyVal.str "Demo Call"),
                 ("start", start), ("end", _end)]]

/-- Embedding of `create_event` (src/main.py, lines 43-61).  The result pairs
the returned value (or raised exception) with the list of network calls
made. -/
def create_event (cfg : Config) (oracle : CalOracle)
    (title description start_time end_time : PyVal) :
    Except PyErr PyVal × List NetCall :=
  if cfg.mock then
    (Except.ok (mock_create_event title description start_time end_time), [])
  else
    let url := "https://www.googleapis.com/calendar/v3/calendars/"
      ++ cfg.CALENDAR_ID ++ "/events"
    let payload := PyVal.dict
      [("summary", title),
       ("description", description),
       ("start", PyVal.dict [("dateTime", start_time),
                             ("timeZone", PyVal.str cfg.TIMEZONE)]),
       ("end", PyVal.dict [("dateTime", end_time),
                           ("timeZone", PyVal.str cfg.TIMEZONE)])]
    let r := oracle.post url payload
    if r.ok then
      (Except.ok r.json, [NetCall.postEvents url payload])
    else
      (Except.error (PyErr.exception ("Google Calendar API error: " ++ r.text)),
       [NetCall.postEvents url payload])

/-- Embedding of `get_events` (src/main.py, lines 64-74).  On success the
source returns `r.json().get("items", [])`, which raises `AttributeError`
when the decoded body is not a dict. -/
def get_events (cfg : Config) (oracle : CalOracle)
    (start_time end_time : PyVal) :
    Except PyErr PyVal × List NetCall :=
  if cfg.mock then
    (Except.ok (mock_get_events start_time end_time), [])
  else
    let url := "https://www.googleapis.com/calendar/v3/calendars/"
      ++ cfg.CALENDAR_ID ++ "/events"
    let params := [("timeMin", start_time), ("timeMax", end_time),
                   ("singleEvents", PyVal.bool true),
                   ("orderBy", PyVal.str "startTime")]
    let r := oracle.get url params
    if r.ok then
      (pyGet r.json "items" (PyVal.list []), [NetCall.getEvents url params])
    else
      (Except.error (PyErr.exception ("Failed to retrieve events: " ++ r.text)),
       [NetCall.getEvents url params])

/-- Embedding of `interpret_user_request` (src/main.py, lines 78-120).
`now1` and `now2` are the readings of the first and second `datetime.now()`
call of the taken mock branch (the dict literal evaluates its values in
order); `timedelta(days=1, hours=10)` is `usPerDay + 10 * usPerHour`
microseconds, and similarly for the other deltas.  In live mode `modelText`
is the completion text returned by the OpenAI call and `jsonLoads` models
`json.loads` (`none` = `JSONDecodeError`); the second, unguarded
`json.loads` of the extracted group raises when it fails. -/
def interpret_user_request (cfg : Config) (now1 now2 : Int)
    (modelText : String) (jsonLoads : String → Option PyVal)
    (message : String) :
    Except PyErr PyVal × List NetCall :=
  if cfg.mock then
    if strContains (pyLower message) "create" || strContains (pyLower message) "add" then
      (Except.ok (PyVal.dict
        [("action", PyVal.str "create"),
         ("event_title", PyVal.str "Team Meeting"),
         ("event_description", PyVal.str "Discuss ongoing projects"),
         ("start_date", PyVal.pydt (now1 + (usPerDay + 10 * usPerHour))),
         ("end_date", PyVal.pydt (now2 + (usPerDay + 11 * usPerHour)))]), [])
    else
      (Except.ok (PyVal.dict
        [("action", PyVal.str "get"),
         ("start_date", PyVal.pydt now1),
         ("end_date", PyVal.pydt (now2 + usPerDay))]), [])
  else
    let call := NetCall.openaiChat message
    match jsonLoads modelText with
    | some v => (Except.ok v, [call])
    | Option.none =>
      match extractBraces modelText with
      | some sub =>
        match jsonLoads sub with
        | some v => (Except.ok v, [call])
        | Option.none => (Except.error PyErr.jsonDecodeError, [call])
      | Option.none => (Except.ok (PyVal.dict []), [call])

/-- Embedding of the event-listing loop of `run_agent` (src/main.py,
lines 144-145): each iteration appends
`"- " + e.get("summary", "Untitled") + " (" + e.get("start", ...).get("dateTime", start) + ")\n"`,
raising `AttributeError` when an element, or its `start` value, is not a
dict (for example when `start` is a plain string). -/
def formatEvents (fallbackStart : PyVal) (reply : String) :
    List PyVal → Except PyErr String
  | [] => Except.ok reply
  | e :: rest =>
    match e with
    | PyVal.dict ent =>
      let summary := dictGetD ent "summary" (PyVal.str "Untitled")
      match dictGetD ent "start" (PyVal.dict []) with
      | PyVal.dict stEnt =>
        let dt := dictGetD stEnt "dateTime" fallbackStart
        formatEvents fallbackStart
          (reply ++ "- " ++ pyStr summary ++ " (" ++ pyStr dt ++ ")\n") rest
      | _ => Except.error (PyErr.attributeError "get")
    | _ => Except.error (PyErr.attributeError "get")

/-- Embedding of `run_agent` (src/main.py, lines 124-149).  Python compares
`data.get("action")` with the string literals `"create"` and `"get"`, which
holds exactly when the value is that string; `data.get(...)` raises
`AttributeError` when the decoded intent is not a dict, and iterating a
non-list result of `get_events` raises (`AttributeError` on the first
element's `.get` for strings and dicts, `TypeError` otherwise). -/
def run_agent (cfg : Config) (now1 now2 : Int) (modelText : String)
    (jsonLoads : String → Option PyVal) (oracle : CalOracle)
    (user_message : String) : Except PyErr String × List NetCall :=
  let itp := interpret_user_request cfg now1 now2 modelText jsonLoads user_message
  match itp.1 with
  | Except.error e => (Except.error e, itp.2)
  | Except.ok data =>
    match data with
    | PyVal.dict entries =>
      match dictGetD entries "action" PyVal.none with
      | PyVal.str s =>
        if s = "create" then
          let titleRaw := dictGetD entries "event_title" PyVal.none
          let title := if pyTruthy titleRaw then titleRaw
                       else PyVal.str "Untitled Event"
          let desc := dictGetD entries "event_description" (PyVal.str "")
          let startD := dictGetD entries "start_date" PyVal.none
          let endD := dictGetD entries "end_date" PyVal.none
          let ce := create_event cfg oracle title desc startD endD
          match ce.1 with
          | Except.error e => (Except.error e, itp.2 ++ ce.2)
          | Except.ok result =>
            match pyGet result "htmlLink" PyVal.none with
            | Except.error e => (Except.error e, itp.2 ++ ce.2)
            | Except.ok link =>
              (Except.ok ("✅ Event \x27" ++ pyStr title
                ++ "\x27 created successfully!\n" ++ pyStr link),
               itp.2 ++ ce.2)
        else if s = "get" then
          let startD := dictGetD entries "start_date" PyVal.none
          let endD := dictGetD entries "end_date" PyVal.none
          let ge := get_events cfg oracle startD endD
          match ge.1 with
          | Except.error e => (Except.error e, itp.2 ++ ge.2)
          | Except.ok evs =>
            if pyTruthy evs = false then
              (Except.ok "No events found in that range.", itp.2 ++ ge.2)
            else
              match evs with
              | PyVal.list elems =>
                match formatEvents startD "📅 Here are your events:\n" elems with
                | Except.ok reply => (Except.ok reply, itp.2 ++ ge.2)
                | Except.error e => (Except.error e, itp.2 ++ ge.2)
              | PyVal.int _ =>
                (Except.error (PyErr.typeError "not iterable"), itp.2 ++ ge.2)
              | PyVal.bool _ =>
                (Except.error (PyErr.typeError "not iterable"), itp.2 ++ ge.2)
              | _ => (Except.error (PyErr.attributeError "get"), itp.2 ++ ge.2)
        else
          (Except.ok "Hello! I can help you manage your Google Calendar — ask me to create or check events.",
           itp.2)
      | _ =>
        (Except.ok "Hello! I can help you manage your Google Calendar — ask me to create or check events.",
         itp.2)
    | _ => (Except.error (PyErr.attributeError "get"), itp.2)

/-- Embedding of `main` (src/main.py, lines 152-156): the CLI arguments are
joined with spaces, an empty (falsy) result falls back to the fixed default
message, and the reply of `run_agent` is printed (printing not modelled). -/
def main (argv : List String) (cfg : Config) (now1 now2 : Int)
    (modelText : String) (jsonLoads : String → Option PyVal)
    (oracle : CalOracle) : Except PyErr String × List NetCall :=
  let joined := String.intercalate " " argv
  let user_input := if joined = "" then "Create a meeting with Alex tomorrow at 2 PM"
                    else joined
  run_agent cfg now1 now2 modelText jsonLoads oracle user_input

/-- The environment with no variables set: every credential is absent. -/
def emptyEnv : String → Option String := fun _ => Option.none

/-- The configuration loaded from the empty environment (mock mode). -/
def mockCfg : Config := Config.load_from_env emptyEnv

/-- An environment providing all three credentials (live mode). -/
def fullEnv : String → Option String := fun k =>
  if k = "OPENAI_API_KEY" then some "sk-test"
  else if k = "GOOGLE_API_TOKEN" then some "token"
  else if k = "CALENDAR_ID" then some "primary"
  else Option.none

/-- The configuration loaded from `fullEnv` (live mode). -/
def liveCfg : Config := Config.load_from_env fullEnv

/-- An oracle answering every calendar request with the same response. -/
def oracleConst (r : HttpResponse) : CalOracle :=
  CalOracle.mk (fun _ _ => r) (fun _ _ => r)

/-- A string option defaults to `""` exactly when it is absent or empty. -/
theorem getD_empty_iff (o : Option String) :
    o.getD "" = "" ↔ (o = Option.none ∨ o = some "") := by
  cases o <;> simp

/-- C1: when the configuration's mock flag is true, `create_event`,
`get_events` and `interpret_user_request` make no network call (empty
trace) and return the fixed mock acknowledgment, the two fixed mock events,
and one of the two canned intents respectively. -/
theorem C1_mock_no_network_calls (cfg : Config) (h : cfg.mock = true)
    (oracle : CalOracle) (now1 now2 : Int) (modelText : String)
    (jsonLoads : String → Option PyVal) (message : String)
    (title desc startC endC startG endG : PyVal) :
    create_event cfg oracle title desc startC endC
      = (Except.ok (PyVal.dict [("status", PyVal.str "mocked"),
          ("htmlLink", PyVal.str "https://calendar.google.com/mock/event")]), [])
  ∧ get_events cfg oracle startG endG
      = (Except.ok (PyVal.list
          [PyVal.dict [("summary", PyVal.str "Mock Meeting with Team"),
                       ("start", startG), ("end", endG)],
           PyVal.dict [("summary", PyVal.str "Demo Call"),
                       ("start", startG), ("end", endG)]]), [])
  ∧ (interpret_user_request cfg now1 now2 modelText jsonLoads message).2 = []
  ∧ ((interpret_user_request cfg now1 now2 modelText jsonLoads message).1
       = Except.ok (PyVal.dict
          [("action", PyVal.str "create"),
           ("event_title", PyVal.str "Team Meeting"),
           ("event_description", PyVal.str "Discuss ongoing projects"),
           ("start_date", PyVal.pydt (now1 + (usPerDay + 10 * usPerHour))),
           ("end_date", PyVal.pydt (now2 + (usPerDay + 11 * usPerHour)))])
     ∨ (interpret_user_request cfg now1 now2 modelText jsonLoads message).1
       = Except.ok (PyVal.dict
          [("action", PyVal.str "get"),
           ("start_date", PyVal.pydt now1),
           ("end_date", PyVal.pydt (now2 + usPerDay))])) := by
  refine ⟨?_, ?_, ?_, ?_⟩
  · simp [create_event, h, mock_create_event]
  · simp [get_events, h, mock_get_events]
  · cases hc : strContains (pyLower message) "create" || strContains (pyLower message) "add" with
    | false => simp [interpret_user_request, h, hc]
    | true => simp [interpret_user_request, h, hc]
  · cases hc : strContains (pyLower message) "create" || strContains (pyLower message) "add" with
    | false =>
      right
      simp [interpret_user_request, h, hc]
    | true =>
      left
      simp [interpret_user_request, h, hc]

/-- C1 witness: a concrete application in mock mode. -/
theorem C1_witness :
    mockCfg.mock = true
  ∧ create_event mockCfg (oracleConst (HttpResponse.mk true "" (PyVal.dict [])))
      PyVal.none PyVal.none PyVal.none PyVal.none
      = (Except.ok (PyVal.dict [("status", PyVal.str "mocked"),
          ("htmlLink", PyVal.str "https://calendar.google.com/mock/event")]), []) :=
  ⟨rfl,
   (C1_mock_no_network_calls mockCfg rfl
      (oracleConst (HttpResponse.mk true "" (PyVal.dict []))) 0 0 ""
      (fun _ => Option.none) "hi"
      PyVal.none PyVal.none PyVal.none PyVal.none PyVal.none PyVal.none).1⟩

/-- C3: `Config.load_from_env` is total; its mock flag is true exactly when
one of the three credentials is absent from the environment or empty; an
absent `TIMEZONE` defaults to `"Europe/Paris"`, and the value of `TIMEZONE`
never affects the mock flag. -/
theorem C3_config_from_env (env : String → Option String) :
    ((Config.load_from_env env).mock = true ↔
      ((env "OPENAI_API_KEY" = Option.none ∨ env "OPENAI_API_KEY" = some "")
       ∨ (env "GOOGLE_API_TOKEN" = Option.none ∨ env "GOOGLE_API_TOKEN" = some "")
       ∨ (env "CALENDAR_ID" = Option.none ∨ env "CALENDAR_ID" = some "")))
  ∧ (env "TIMEZONE" = Option.none → (Config.load_from_env env).TIMEZONE = "Europe/Paris")
  ∧ (∀ tz : Option String,
      (Config.load_from_env (fun k => if k = "TIMEZONE" then tz else env k)).mock
        = (Config.load_from_env env).mock) := by
  refine ⟨?_, ?_, ?_⟩
  · simp only [Config.load_from_env, ← getD_empty_iff]
    simp [Decidable.not_not]
    tauto
  · intro htz
    simp [Config.load_from_env, htz]
  · intro tz
    simp [Config.load_from_env]

/-- C3 witness: the empty environment yields mock mode and the default
timezone. -/
theorem C3_witness :
    (Config.load_from_env emptyEnv).mock = true
  ∧ (Config.load_from_env emptyEnv).TIMEZONE = "Europe/Paris" :=
  ⟨(C3_config_from_env emptyEnv).1.mpr (Or.inl (Or.inl rfl)),
   (C3_config_from_env emptyEnv).2.1 rfl⟩

/-- C4: in mock mode, every message containing `"create"` or `"add"`
(case-insensitively) yields the canned create intent: action `"create"`,
non-empty title and description, and an end date strictly after the start
date (the clock readings of the two successive `datetime.now()` calls are
monotone). -/
theorem C4_mock_create_intent (message : String) (now1 now2 : Int)
    (h : now1 ≤ now2)
    (hmsg : (strContains (pyLower message) "create" || strContains (pyLower message) "add") = true)
    (modelText : String) (jsonLoads : String → Option PyVal) :
    interpret_user_request mockCfg now1 now2 modelText jsonLoads message
      = (Except.ok (PyVal.dict
          [("action", PyVal.str "create"),
           ("event_title", PyVal.str "Team Meeting"),
           ("event_description", PyVal.str "Discuss ongoing projects"),
           ("start_date", PyVal.pydt (now1 + (usPerDay + 10 * usPerHour))),
           ("end_date", PyVal.pydt (now2 + (usPerDay + 11 * usPerHour)))]), [])
  ∧ ("Team Meeting" : String) ≠ ""
  ∧ ("Discuss ongoing projects" : String) ≠ ""
  ∧ now1 + (usPerDay + 10 * usPerHour) < now2 + (usPerDay + 11 * usPerHour) := by
  refine ⟨?_, by decide, by decide, ?_⟩
  · have hm : mockCfg.mock = true := rfl
    simp [interpret_user_request, hm, hmsg]
  · have h2 : usPerDay + 10 * usPerHour < usPerDay + 11 * usPerHour := by
      norm_num [usPerDay, usPerHour]
    linarith

/-- C4 witness: the message `"add a sync"` with both clock readings 0. -/
theorem C4_witness :
    ((0 : Int) ≤ 0)
  ∧ (strContains (pyLower "add a sync") "create"
      || strContains (pyLower "add a sync") "add") = true
  ∧ interpret_user_request mockCfg 0 0 "" (fun _ => Option.none) "add a sync"
      = (Except.ok (PyVal.dict
          [("action", PyVal.str "create"),
           ("event_title", PyVal.str "Team Meeting"),
           ("event_description", PyVal.str "Discuss ongoing projects"),
           ("start_date", PyVal.pydt (0 + (usPerDay + 10 * usPerHour))),
           ("end_date", PyVal.pydt (0 + (usPerDay + 11 * usPerHour)))]), []) :=
  ⟨le_refl 0, by decide,
   (C4_mock_create_intent "add a sync" 0 0 (le_refl 0) (by decide) ""
      (fun _ => Option.none)).1⟩

/-- C5 counterexample: with valid (monotone) clock readings 0 and 1, the
mock get intent's end date is the second reading plus 24 hours, which is
not exactly 24 hours after its start date (the first reading). -/
theorem C5_counterexample :
    ((0 : Int) ≤ 1)
  ∧ (interpret_user_request mockCfg 0 1 "" (fun _ => Option.none) "hello").1
      = Except.ok (PyVal.dict
          [("action", PyVal.str "get"),
           ("start_date", PyVal.pydt 0),
           ("end_date", PyVal.pydt (1 + usPerDay))])
  ∧ (1 : Int) + usPerDay ≠ 0 + usPerDay := by
  refine ⟨by norm_num, rfl, ?_⟩
  intro hcon
  have : (1 : Int) = 0 := by linarith
  norm_num at this

/-- C5 (amended): in mock mode every message containing neither `"create"`
nor `"add"` yields the canned get intent whose start date is the first
`datetime.now()` reading and whose end date is the second reading plus 24
hours; with a monotone clock the end date is at least 24 hours after the
start date, and exactly 24 hours after it when the two readings coincide. -/
theorem C5_mock_get_intent (message : String) (now1 now2 : Int)
    (h : now1 ≤ now2)
    (hmsg : (strContains (pyLower message) "create" || strContains (pyLower message) "add") = false)
    (modelText : String) (jsonLoads : String → Option PyVal) :
    interpret_user_request mockCfg now1 now2 modelText jsonLoads message
      = (Except.ok (PyVal.dict
          [("action", PyVal.str "get"),
           ("start_date", PyVal.pydt now1),
           ("end_date", PyVal.pydt (now2 + usPerDay))]), [])
  ∧ now1 + usPerDay ≤ now2 + usPerDay
  ∧ (now2 = now1 → now2 + usPerDay = now1 + usPerDay) := by
  refine ⟨?_, by linarith, fun he => by rw [he]⟩
  have hm : mockCfg.mock = true := rfl
  simp [interpret_user_request, hm, hmsg]

/-- C2 (evaluation at the failing input): in mock mode, on the input
"Show me my events tomorrow" the interpreter does yield the canned get
intent and the calendar client the two fixed mock events, but no reply
listing the events is ever produced: `run_agent` raises `AttributeError`,
because the mock events carry their start as a plain isoformat string on
which the formatter calls `.get("dateTime", ...)`. -/
theorem C2_mock_get_crashes :
    (interpret_user_request mockCfg 0 0 "" (fun _ => Option.none)
        "Show me my events tomorrow").1
      = Except.ok (PyVal.dict
          [("action", PyVal.str "get"),
           ("start_date", PyVal.pydt 0),
           ("end_date", PyVal.pydt (0 + usPerDay))])
  ∧ (get_events mockCfg (oracleConst (HttpResponse.mk true "" (PyVal.dict [])))
        (PyVal.pydt 0) (PyVal.pydt (0 + usPerDay))).1
      = Except.ok (PyVal.list
          [PyVal.dict [("summary", PyVal.str "Mock Meeting with Team"),
                       ("start", PyVal.pydt 0), ("end", PyVal.pydt (0 + usPerDay))],
           PyVal.dict [("summary", PyVal.str "Demo Call"),
                       ("start", PyVal.pydt 0), ("end", PyVal.pydt (0 + usPerDay))]])
  ∧ (run_agent mockCfg 0 0 "" (fun _ => Option.none)
        (oracleConst (HttpResponse.mk true "" (PyVal.dict [])))
        "Show me my events tomorrow").1
      = Except.error (PyErr.attributeError "get") :=
  ⟨rfl, rfl, rfl⟩

/-- C6: in live mode `interpret_user_request` returns the direct decode of
the model text when it succeeds; otherwise it decodes the brace-delimited
substring extracted by the regex when one exists; when no brace-delimited
substring exists it returns the empty mapping, and `run_agent` then answers
with the fixed greeting rather than an error. -/
theorem C6_live_parse_fallback (cfg : Config) (h : cfg.mock = false)
    (now1 now2 : Int) (modelText : String)
    (jsonLoads : String → Option PyVal) (message : String) :
    (∀ v, jsonLoads modelText = some v →
      interpret_user_request cfg now1 now2 modelText jsonLoads message
        = (Except.ok v, [NetCall.openaiChat message]))
  ∧ (jsonLoads modelText = Option.none →
      ∀ sub, extractBraces modelText = some sub →
        ∀ w, jsonLoads sub = some w →
          interpret_user_request cfg now1 now2 modelText jsonLoads message
            = (Except.ok w, [NetCall.openaiChat message]))
  ∧ (jsonLoads modelText = Option.none →
      extractBraces modelText = Option.none →
      interpret_user_request cfg now1 now2 modelText jsonLoads message
        = (Except.ok (PyVal.dict []), [NetCall.openaiChat message]))
  ∧ (jsonLoads modelText = Option.none →
      extractBraces modelText = Option.none →
      ∀ oracle : CalOracle,
        (run_agent cfg now1 now2 modelText jsonLoads oracle message).1
          = Except.ok "Hello! I can help you manage your Google Calendar — ask me to create or check events.") := by
  refine ⟨?_, ?_, ?_, ?_⟩
  · intro v hv
    simp [interpret_user_request, h, hv]
  · intro h1 sub h2 w h3
    simp [interpret_user_request, h, h1, h2, h3]
  · intro h1 h2
    simp [interpret_user_request, h, h1, h2]
  · intro h1 h2 oracle
    simp [run_agent, interpret_user_request, h, h1, h2, dictGetD]

/-- C6 witness: a model text with no brace anywhere yields the empty
mapping and the greeting reply. -/
theorem C6_witness :
    liveCfg.mock = false
  ∧ ((fun _ => (Option.none : Option PyVal)) "no braces here" = Option.none)
  ∧ extractBraces "no braces here" = Option.none
  ∧ (run_agent liveCfg 0 0 "no braces here" (fun _ => Option.none)
        (oracleConst (HttpResponse.mk true "" (PyVal.dict []))) "hi").1
      = Except.ok "Hello! I can help you manage your Google Calendar — ask me to create or check events." :=
  ⟨rfl, rfl, rfl,
   (C6_live_parse_fallback liveCfg rfl 0 0 "no braces here"
      (fun _ => Option.none) "hi").2.2.2 rfl rfl
      (oracleConst (HttpResponse.mk true "" (PyVal.dict [])))⟩

/-- C7: in live mode a non-success HTTP response makes `create_event` and
`get_events` raise a generic `Exception` carrying the response body text;
nothing catches or retries it, so the failure propagates through
`run_agent` and `main` to the top level. -/
theorem C7_http_error_propagates (cfg : Config) (h : cfg.mock = false)
    (r : HttpResponse) (hr : r.ok = false)
    (title desc startC endC startG endG : PyVal)
    (now1 now2 : Int) (modelText message : String)
    (data : List (String × PyVal)) (jsonLoads : String → Option PyVal)
    (hj : jsonLoads modelText = some (PyVal.dict data)) :
    (create_event cfg (oracleConst r) title desc startC endC).1
      = Except.error (PyErr.exception ("Google Calendar API error: " ++ r.text))
  ∧ (get_events cfg (oracleConst r) startG endG).1
      = Except.error (PyErr.exception ("Failed to retrieve events: " ++ r.text))
  ∧ (dictGetD data "action" PyVal.none = PyVal.str "create" →
      (run_agent cfg now1 now2 modelText jsonLoads (oracleConst r) message).1
        = Except.error (PyErr.exception ("Google Calendar API error: " ++ r.text)))
  ∧ (dictGetD data "action" PyVal.none = PyVal.str "get" →
      (run_agent cfg now1 now2 modelText jsonLoads (oracleConst r) message).1
        = Except.error (PyErr.exception ("Failed to retrieve events: " ++ r.text)))
  ∧ (message ≠ "" → dictGetD data "action" PyVal.none = PyVal.str "get" →
      (main [message] cfg now1 now2 modelText jsonLoads (oracleConst r)).1
        = Except.error (PyErr.exception ("Failed to retrieve events: " ++ r.text))) := by
  have hget : dictGetD data "action" PyVal.none = PyVal.str "get" →
      (run_agent cfg now1 now2 modelText jsonLoads (oracleConst r) message).1
        = Except.error (PyErr.exception ("Failed to retrieve events: " ++ r.text)) := by
    intro hact
    simp [run_agent, interpret_user_request, h, hj, hact, get_events, oracleConst, hr]
  refine ⟨?_, ?_, ?_, hget, ?_⟩
  · simp [create_event, h, oracleConst, hr]
  · simp [get_events, h, oracleConst, hr]
  · intro hact
    simp [run_agent, interpret_user_request, h, hj, hact, create_event, oracleConst, hr]
  · intro hm hact
    have hjoin : String.intercalate " " [message] = message := rfl
    have hmain : main [message] cfg now1 now2 modelText jsonLoads (oracleConst r)
        = run_agent cfg now1 now2 modelText jsonLoads (oracleConst r) message := by
      simp [main, hjoin, hm]
    rw [hmain]
    exact hget hact

/-- C7 witness: a failing response with body `"BODY"` in live mode. -/
theorem C7_witness :
    liveCfg.mock = false
  ∧ (HttpResponse.mk false "BODY" (PyVal.dict [])).ok = false
  ∧ ((fun _ => some (PyVal.dict [("action", PyVal.str "get")])) "t"
      = some (PyVal.dict [("action", PyVal.str "get")]))
  ∧ (get_events liveCfg (oracleConst (HttpResponse.mk false "BODY" (PyVal.dict [])))
        PyVal.none PyVal.none).1
      = Except.error (PyErr.exception ("Failed to retrieve events: " ++ "BODY")) :=
  ⟨rfl, rfl, rfl,
   (C7_http_error_propagates liveCfg rfl (HttpResponse.mk false "BODY" (PyVal.dict []))
      rfl PyVal.none PyVal.none PyVal.none PyVal.none PyVal.none PyVal.none 0 0 "t" "hi"
      [("action", PyVal.str "get")] (fun _ => some (PyVal.dict [("action", PyVal.str "get")]))
      rfl).2.1⟩

/-- C8: when the intent's action is "get" and the calendar client returns
an empty list, the reply is exactly "No events found in that range.". -/
theorem C8_empty_events_reply (cfg : Config) (h : cfg.mock = false)
    (now1 now2 : Int) (modelText message : String)
    (startD endD : PyVal) (jsonLoads : String → Option PyVal)
    (hj : jsonLoads modelText = some (PyVal.dict
      [("action", PyVal.str "get"), ("start_date", startD), ("end_date", endD)]))
    (r : HttpResponse) (hok : r.ok = true)
    (hitems : r.json = PyVal.dict [("items", PyVal.list [])]) :
    (run_agent cfg now1 now2 modelText jsonLoads (oracleConst r) message).1
      = Except.ok "No events found in that range." := by
  simp [run_agent, interpret_user_request, h, hj, get_events, oracleConst, hok,
        hitems, pyGet, dictGetD, pyTruthy]

/-- C8 witness: a live run whose get request returns no items. -/
theorem C8_witness :
    liveCfg.mock = false
  ∧ ((fun _ => some (PyVal.dict
        [("action", PyVal.str "get"), ("start_date", PyVal.str "s"),
         ("end_date", PyVal.str "e")])) "t"
      = some (PyVal.dict
        [("action", PyVal.str "get"), ("start_date", PyVal.str "s"),
         ("end_date", PyVal.str "e")]))
  ∧ (HttpResponse.mk true "" (PyVal.dict [("items", PyVal.list [])])).ok = true
  ∧ (HttpResponse.mk true "" (PyVal.dict [("items", PyVal.list [])])).json
      = PyVal.dict [("items", PyVal.list [])]
  ∧ (run_agent liveCfg 0 0 "t"
        (fun _ => some (PyVal.dict
          [("action", PyVal.str "get"), ("start_date", PyVal.str "s"),
           ("end_date", PyVal.str "e")]))
        (oracleConst (HttpResponse.mk true "" (PyVal.dict [("items", PyVal.list [])])))
        "show").1
      = Except.ok "No events found in that range." :=
  ⟨rfl, rfl, rfl, rfl,
   C8_empty_events_reply liveCfg rfl 0 0 "t" "show" (PyVal.str "s") (PyVal.str "e")
      (fun _ => some (PyVal.dict
        [("action", PyVal.str "get"), ("start_date", PyVal.str "s"),
         ("end_date", PyVal.str "e")]))
      rfl (HttpResponse.mk true "" (PyVal.dict [("items", PyVal.list [])])) rfl rfl⟩

/-- C5 witness: the message `"hello"` with both clock readings 0. -/
theorem C5_witness :
    ((0 : Int) ≤ 0)
  ∧ (strContains (pyLower "hello") "create"
      || strContains (pyLower "hello") "add") = false
  ∧ interpret_user_request mockCfg 0 0 "" (fun _ => Option.none) "hello"
      = (Except.ok (PyVal.dict
          [("action", PyVal.str "get"),
           ("start_date", PyVal.pydt 0),
           ("end_date", PyVal.pydt (0 + usPerDay))]), []) :=
  ⟨le_refl 0, by decide,
   (C5_mock_get_intent "hello" 0 0 (le_refl 0) (by decide) ""
      (fun _ => Option.none)).1⟩

/-- C9: in mock mode, on the input "Add a meeting with Sarah next Monday
2pm" the interpreter yields the create intent titled "Team Meeting", the
calendar client returns the fixed mock acknowledgment, and the final reply
starts with the confirmation header (here stated with the full reply, whose
tail is the mock link). -/
theorem C9_mock_create_e2e (now1 now2 : Int) (modelText : String)
    (jsonLoads : String → Option PyVal) (oracle : CalOracle) :
    (interpret_user_request mockCfg now1 now2 modelText jsonLoads
        "Add a meeting with Sarah next Monday 2pm").1
      = Except.ok (PyVal.dict
          [("action", PyVal.str "create"),
           ("event_title", PyVal.str "Team Meeting"),
           ("event_description", PyVal.str "Discuss ongoing projects"),
           ("start_date", PyVal.pydt (now1 + (usPerDay + 10 * usPerHour))),
           ("end_date", PyVal.pydt (now2 + (usPerDay + 11 * usPerHour)))])
  ∧ (create_event mockCfg oracle (PyVal.str "Team Meeting")
        (PyVal.str "Discuss ongoing projects")
        (PyVal.pydt (now1 + (usPerDay + 10 * usPerHour)))
        (PyVal.pydt (now2 + (usPerDay + 11 * usPerHour)))).1
      = Except.ok (PyVal.dict [("status", PyVal.str "mocked"),
          ("htmlLink", PyVal.str "https://calendar.google.com/mock/event")])
  ∧ run_agent mockCfg now1 now2 modelText jsonLoads oracle
        "Add a meeting with Sarah next Monday 2pm"
      = (Except.ok ("✅ Event \x27Team Meeting\x27 created successfully!\n"
          ++ "https://calendar.google.com/mock/event"), [])
  ∧ charsStartWith
      (String.toList "✅ Event \x27Team Meeting\x27 created successfully!")
      (String.toList ("✅ Event \x27Team Meeting\x27 created successfully!\n"
        ++ "https://calendar.google.com/mock/event")) = true :=
  ⟨rfl, rfl, rfl, by decide⟩

/-- C10 counterexample: a listed event that lacks a summary but carries its
start as a plain string produces no "Untitled" bullet line at all — the run
raises `AttributeError` instead of producing a reply. -/
theorem C10_counterexample :
    List.lookup "summary" [("start", PyVal.str "2025-01-01T00:00:00")]
      = (Option.none : Option PyVal)
  ∧ (run_agent liveCfg 0 0 "t"
        (fun _ => some (PyVal.dict
          [("action", PyVal.str "get"), ("start_date", PyVal.str "s"),
           ("end_date", PyVal.str "e")]))
        (oracleConst (HttpResponse.mk true ""
          (PyVal.dict [("items", PyVal.list
            [PyVal.dict [("start", PyVal.str "2025-01-01T00:00:00")]])])))
        "list my events").1
      = Except.error (PyErr.attributeError "get") :=
  ⟨rfl, rfl⟩

/-- C10 (amended): for every create intent whose `event_title` is missing
or falsy, `run_agent` substitutes "Untitled Event" both in the POST payload
of the created event and in the confirmation reply; and for every listed
event lacking a summary whose start field is absent or a mapping, the
bullet line shows "Untitled". -/
theorem C10_untitled_defaults (cfg : Config) (h : cfg.mock = false)
    (now1 now2 : Int) (modelText message : String)
    (entries : List (String × PyVal)) (jsonLoads : String → Option PyVal)
    (hj : jsonLoads modelText = some (PyVal.dict entries))
    (hact : dictGetD entries "action" PyVal.none = PyVal.str "create")
    (htitle : pyTruthy (dictGetD entries "event_title" PyVal.none) = false)
    (r : HttpResponse) (link : String) (hok : r.ok = true)
    (hjson : r.json = PyVal.dict [("htmlLink", PyVal.str link)]) :
    (run_agent cfg now1 now2 modelText jsonLoads (oracleConst r) message).1
      = Except.ok ("✅ Event \x27Untitled Event\x27 created successfully!\n" ++ link)
  ∧ (run_agent cfg now1 now2 modelText jsonLoads (oracleConst r) message).2
      = [NetCall.openaiChat message,
         NetCall.postEvents
           ("https://www.googleapis.com/calendar/v3/calendars/"
             ++ cfg.CALENDAR_ID ++ "/events")
           (PyVal.dict
             [("summary", PyVal.str "Untitled Event"),
              ("description", dictGetD entries "event_description" (PyVal.str "")),
              ("start", PyVal.dict
                [("dateTime", dictGetD entries "start_date" PyVal.none),
                 ("timeZone", PyVal.str cfg.TIMEZONE)]),
              ("end", PyVal.dict
                [("dateTime", dictGetD entries "end_date" PyVal.none),
                 ("timeZone", PyVal.str cfg.TIMEZONE)])])]
  ∧ (∀ (ent : List (String × PyVal)) (stEnt : List (String × PyVal)) (fb : PyVal),
      List.lookup "summary" ent = Option.none →
      List.lookup "start" ent = some (PyVal.dict stEnt) →
      formatEvents fb "" [PyVal.dict ent]
        = Except.ok ("- Untitled (" ++ pyStr (dictGetD stEnt "dateTime" fb) ++ ")\n"))
  ∧ (∀ (ent : List (String × PyVal)) (fb : PyVal),
      List.lookup "summary" ent = Option.none →
      List.lookup "start" ent = Option.none →
      formatEvents fb "" [PyVal.dict ent]
        = Except.ok ("- Untitled (" ++ pyStr fb ++ ")\n")) := by
  have hact2 : (match List.lookup "action" entries with
      | some v => v
      | Option.none => PyVal.none) = PyVal.str "create" := by
    simpa [dictGetD] using hact
  have htitle2 : pyTruthy (match List.lookup "event_title" entries with
      | some v => v
      | Option.none => PyVal.none) = false := by
    simpa [dictGetD] using htitle
  refine ⟨?_, ?_, ?_, ?_⟩
  · simp [run_agent, interpret_user_request, h, hj, hact2, htitle2, create_event,
          oracleConst, hok, hjson, pyGet, dictGetD]
    try rfl
  · simp [run_agent, interpret_user_request, h, hj, hact2, htitle2, create_event,
          oracleConst, hok, hjson, pyGet, dictGetD]
    try rfl
  · intro ent stEnt fb h1 h2
    simp only [formatEvents, dictGetD, h1, h2]
    rfl
  · intro ent fb h1 h2
    simp only [formatEvents, dictGetD, h1, h2]
    rfl

/-- C10 witness: a create intent with an empty title and a link "LINK". -/
theorem C10_witness :
    liveCfg.mock = false
  ∧ ((fun _ => some (PyVal.dict
        [("action", PyVal.str "create"), ("event_title", PyVal.str "")])) "t"
      = some (PyVal.dict
        [("action", PyVal.str "create"), ("event_title", PyVal.str "")]))
  ∧ dictGetD [("action", PyVal.str "create"), ("event_title", PyVal.str "")]
      "action" PyVal.none = PyVal.str "create"
  ∧ pyTruthy (dictGetD [("action", PyVal.str "create"), ("event_title", PyVal.str "")]
      "event_title" PyVal.none) = false
  ∧ (run_agent liveCfg 0 0 "t"
        (fun _ => some (PyVal.dict
          [("action", PyVal.str "create"), ("event_title", PyVal.str "")]))
        (oracleConst (HttpResponse.mk true ""
          (PyVal.dict [("htmlLink", PyVal.str "LINK")])))
        "hi").1
      = Except.ok ("✅ Event \x27Untitled Event\x27 created successfully!\n" ++ "LINK") :=
  ⟨rfl, rfl, rfl, rfl,
   (C10_untitled_defaults liveCfg rfl 0 0 "t" "hi"
      [("action", PyVal.str "create"), ("event_title", PyVal.str "")]
      (fun _ => some (PyVal.dict
        [("action", PyVal.str "create"), ("event_title", PyVal.str "")]))
      rfl rfl rfl
      (HttpResponse.mk true "" (PyVal.dict [("htmlLink", PyVal.str "LINK")]))
      "LINK" rfl rfl).1⟩

end CalendarAgent
